import Mathlib

/-!
# HypePlot — verification of the time-bucket generator and fetch orchestration

Shallow embedding of the HypePlot repository's core:

* `src/utils/date_utils.py` — `generate_date_buckets`, `year_to_bucket_count`;
* `src/sources/github.py`, `news.py`, `twitter.py`, `youtube.py`,
  `packages.py` — the `get_range` fetch loops;
* `src/sources/trends.py` — `_fetch_with_retries` / `fetch_trends`;
* `src/hype.py` — bucket/source/format validation and exit codes;
* `src/utils/utils_io.py` — `save_csv`.

Python `datetime` values are modelled as absolute second counts from
year 1, Jan 1, 00:00:00 (proleptic Gregorian calendar, exactly CPython's
`datetime.toordinal` arithmetic): the datetime `(y, m, d, hh, mm, ss)`
is `(toordinal y m d - 1) * 86400 + hh*3600 + mm*60 + ss`.  All datetimes
constructed by the code are either `00:00:00` starts or `23:59:59` ends,
and `timedelta` arithmetic on this representation is exact.
-/

set_option maxHeartbeats 1600000
set_option maxRecDepth 2048

/-- CPython `calendar.isleap` / `datetime._is_leap`. -/
def isLeap (y : Nat) : Bool := (y % 4 == 0 && y % 100 != 0) || (y % 400 == 0)

/-- Days in year `y` (365 or 366). -/
def daysInYear (y : Nat) : Nat := if isLeap y then 366 else 365

/-- CPython `datetime._days_in_month` (months 1..12; out-of-range defaults are never used). -/
def daysInMonth (y m : Nat) : Nat :=
  match m with
  | 2 => if isLeap y then 29 else 28
  | 4 => 30
  | 6 => 30
  | 9 => 30
  | 11 => 30
  | _ => 31

/-- CPython `datetime._days_before_year`: days between Jan 1 of year 1 and Jan 1 of year `y`. -/
def daysBeforeYear (y : Nat) : Nat :=
  (y - 1) * 365 + (y - 1) / 4 - (y - 1) / 100 + (y - 1) / 400

/-- CPython `datetime._days_before_month`: days in year `y` preceding month `m`. -/
def daysBeforeMonth (y m : Nat) : Nat :=
  (match m with
   | 1 => 0 | 2 => 31 | 3 => 59 | 4 => 90 | 5 => 120 | 6 => 151
   | 7 => 181 | 8 => 212 | 9 => 243 | 10 => 273 | 11 => 304 | 12 => 334
   | _ => 365)
  + (if 2 < m && isLeap y then 1 else 0)

/-- CPython `date.toordinal`: Jan 1 of year 1 is ordinal 1. -/
def toordinal (y m d : Nat) : Nat := daysBeforeYear y + daysBeforeMonth y m + d

/-- Seconds value of the Python datetime `datetime(y, m, d)` (midnight). -/
def dtSec (y m d : Nat) : Nat := (toordinal y m d - 1) * 86400

/-- Seconds value of the Python datetime `datetime(y, m, d, 23, 59, 59)`. -/
def dtEndSec (y m d : Nat) : Nat := dtSec y m d + 86399

/-- Year of the day offset `o` (days since Jan 1 of year `a`), with the
residual day-of-year offset; inverse direction of `daysBeforeYear`. -/
def yearAndDoy (a o : Nat) : Nat × Nat :=
  if h : o < daysInYear a then (a, o) else yearAndDoy (a + 1) (o - daysInYear a)
termination_by o
decreasing_by
  have hy : 365 ≤ daysInYear a := by unfold daysInYear; split <;> omega
  omega

/-- Month of day-of-year offset `o` in year `y`, searching from month `m`,
with the residual day-of-month (1-based); inverse direction of `daysBeforeMonth`. -/
def monthAndDom (y m o : Nat) : Nat × Nat :=
  if h : o < daysInMonth y m then (m, o + 1) else monthAndDom y (m + 1) (o - daysInMonth y m)
termination_by o
decreasing_by
  have hm : 28 ≤ daysInMonth y m := by
    unfold daysInMonth; split <;> first | omega | (split <;> omega)
  omega

/-- CPython `date.fromordinal` as (year, month, day). -/
def ordToDate (o : Nat) : Nat × Nat × Nat :=
  let yd := yearAndDoy 1 (o - 1)
  let md := monthAndDom yd.1 1 yd.2
  (yd.1, md.1, md.2)

/-- Date (year, month, day) containing an absolute second count. -/
def secToDate (t : Nat) : Nat × Nat × Nat := ordToDate (t / 86400 + 1)

/-- Zero-pad the decimal representation of `n` to width `w` (CPython `strftime` padding). -/
def padNum (w n : Nat) : String :=
  let s := toString n
  String.mk (List.replicate (w - s.length) '0') ++ s

/-- `strftime("%Y-%m-%d")` of the datetime at absolute second `t`. -/
def strfYMD (t : Nat) : String :=
  let d := secToDate t
  padNum 4 d.1 ++ "-" ++ padNum 2 d.2.1 ++ "-" ++ padNum 2 d.2.2

/-- `strftime("%Y-%m")` of a datetime constructed as `datetime(y, m, ...)`. -/
def strfYM (y m : Nat) : String := padNum 4 y ++ "-" ++ padNum 2 m

/-- One yielded bucket of `generate_date_buckets`: start datetime, end
datetime (both as absolute seconds) and label. -/
structure Bucket where
  startSec : Nat
  endSec : Nat
  label : String
deriving DecidableEq, Repr

/-! ## `generate_date_buckets` (src/utils/date_utils.py lines 12-92) -/

/-- Branch `bucket_days == 365 or bucket_days == 366` of `generate_date_buckets`:
one bucket per calendar year, `datetime(year,1,1)` to `datetime(year,12,31,23,59,59)`,
label `str(year)`. -/
def yearlyBuckets (start_year end_year : Nat) : List Bucket :=
  (List.range' start_year (end_year + 1 - start_year)).map fun year =>
    ⟨dtSec year 1 1, dtEndSec year 12 31, toString year⟩

/-- The `quarter_starts`/`quarter_ends` tables zipped with `enumerate(..., 1)`:
`(q, (start_m, start_d), (end_m, end_d))`. -/
def quarterTable : List (Nat × (Nat × Nat) × (Nat × Nat)) :=
  [(1, (1, 1), (3, 31)), (2, (4, 1), (6, 30)), (3, (7, 1), (9, 30)), (4, (10, 1), (12, 31))]

/-- Branch `bucket_days == 90`: four calendar quarters per year, label `f"{year}-Q{q}"`. -/
def quarterlyBuckets (start_year end_year : Nat) : List Bucket :=
  (List.range' start_year (end_year + 1 - start_year)).flatMap fun year =>
    quarterTable.map fun q =>
      ⟨dtSec year q.2.1.1 q.2.1.2, dtEndSec year q.2.2.1 q.2.2.2,
       toString year ++ "-Q" ++ toString q.1⟩

/-- Branch `bucket_days == 30`: twelve calendar months per year; for
`month == 12` the end is `datetime(year,12,31,23,59,59)`, otherwise
`datetime(year, month+1, 1) - timedelta(seconds=1)`; label
`current_start.strftime("%Y-%m")`. -/
def monthlyBuckets (start_year end_year : Nat) : List Bucket :=
  (List.range' start_year (end_year + 1 - start_year)).flatMap fun year =>
    (List.range' 1 12).map fun month =>
      ⟨dtSec year month 1,
       if month == 12 then dtEndSec year 12 31 else dtSec year (month + 1) 1 - 1,
       strfYM year month⟩

/-- Label of a fixed-day bucket (lines 85-88): a single date when start and
end share year and month, otherwise `"start_end"`. -/
def fixedLabel (s e : Nat) : String :=
  let ds := secToDate s
  let de := secToDate e
  if ds.1 == de.1 && ds.2.1 == de.2.1 then strfYMD s
  else strfYMD s ++ "_" ++ strfYMD e

/-- The `while current_start <= end_date` loop of the fixed-day branch
(lines 79-92): `current_end = min(current_start + timedelta(days=bucket_days-1,
hours=23, minutes=59, seconds=59), end_date)`; the next `current_start` is
`current_end + timedelta(seconds=1)`. -/
def fixedBuckets (current_start end_sec bucket_days : Nat) : List Bucket :=
  if h : current_start ≤ end_sec then
    let current_end := min (current_start + ((bucket_days - 1) * 86400 + 86399)) end_sec
    ⟨current_start, current_end, fixedLabel current_start current_end⟩ ::
      fixedBuckets (current_end + 1) end_sec bucket_days
  else []
termination_by end_sec + 1 - current_start
decreasing_by
  have : current_start ≤ min (current_start + ((bucket_days - 1) * 86400 + 86399)) end_sec := by
    omega
  omega

/-- `generate_date_buckets(start_year, end_year, bucket_days)` — the full
dispatch of src/utils/date_utils.py lines 12-92, as the list of yielded buckets. -/
def generate_date_buckets (start_year end_year bucket_days : Nat) : List Bucket :=
  if bucket_days = 365 ∨ bucket_days = 366 then yearlyBuckets start_year end_year
  else if bucket_days = 90 then quarterlyBuckets start_year end_year
  else if bucket_days = 30 then monthlyBuckets start_year end_year
  else fixedBuckets (dtSec start_year 1 1) (dtEndSec end_year 12 31) bucket_days

/-- `year_to_bucket_count` (lines 121-137): `(end_date - start_date).days + 1`
then ceiling division written as `(total_days + bucket_days - 1) // bucket_days`
(Python `//` is floor division, `Int.fdiv`). -/
def year_to_bucket_count (start_year end_year bucket_days : Nat) : Int :=
  let total_days : Int :=
    ((toordinal end_year 12 31 : Int) - (toordinal start_year 1 1 : Int)) + 1
  Int.fdiv (total_days + bucket_days - 1) bucket_days

/-! ## Calendar arithmetic lemmas -/

theorem isLeap_iff (y : Nat) :
    isLeap y = true ↔ (y % 4 = 0 ∧ y % 100 ≠ 0) ∨ y % 400 = 0 := by
  unfold isLeap
  simp [Bool.or_eq_true, Bool.and_eq_true, beq_iff_eq, bne_iff_ne]

theorem daysBeforeYear_succ (y : Nat) (hy : 1 ≤ y) :
    daysBeforeYear (y + 1) = daysBeforeYear y + daysInYear y := by
  unfold daysBeforeYear daysInYear
  by_cases hL : isLeap y = true
  · rw [if_pos hL]
    rw [isLeap_iff] at hL
    omega
  · rw [if_neg hL]
    rw [isLeap_iff] at hL
    push_neg at hL
    omega

theorem daysBeforeMonth_first (y : Nat) : daysBeforeMonth y 1 = 0 := by
  unfold daysBeforeMonth; simp

theorem daysBeforeMonth_last (y : Nat) :
    daysBeforeMonth y 12 = 334 + (if isLeap y = true then 1 else 0) := by
  unfold daysBeforeMonth
  by_cases hL : isLeap y = true <;> simp [hL]

theorem toordinal_dec31_succ (y : Nat) (hy : 1 ≤ y) :
    toordinal y 12 31 + 1 = toordinal (y + 1) 1 1 := by
  have h := daysBeforeYear_succ y hy
  unfold daysInYear at h
  unfold toordinal
  rw [daysBeforeMonth_first, daysBeforeMonth_last]
  by_cases hL : isLeap y = true
  · rw [if_pos hL] at h ⊢; omega
  · rw [if_neg hL] at h ⊢; omega

theorem toordinal_pos (y m d : Nat) (hd : 1 ≤ d) : 1 ≤ toordinal y m d := by
  unfold toordinal; omega

theorem dtEndSec_dec31_succ (y : Nat) (hy : 1 ≤ y) :
    dtEndSec y 12 31 + 1 = dtSec (y + 1) 1 1 := by
  have h := toordinal_dec31_succ y hy
  have h1 := toordinal_pos y 12 31 (by omega)
  unfold dtEndSec dtSec
  omega

/-! ## Bucket-sequence structure: chains, well-formedness, coverage -/

/-- Adjacency of consecutive buckets: the next bucket starts one second
(hence one day, since all ends are 23:59:59 instants) after the previous ends. -/
def adjB (a b : Bucket) : Prop := b.startSec = a.endSec + 1

instance (a b : Bucket) : Decidable (adjB a b) := by unfold adjB; infer_instance

/-- Start of the first bucket (0 for the empty list). -/
def firstStart : List Bucket → Nat
  | [] => 0
  | b :: _ => b.startSec

/-- End of the last bucket (0 for the empty list). -/
def lastEnd : List Bucket → Nat
  | [] => 0
  | [b] => b.endSec
  | _ :: b :: t => lastEnd (b :: t)

/-- A nonempty chronological chain of nonempty buckets running exactly
from second `lo` to second `hi`: contiguous, non-overlapping, gap-free. -/
def goodSeq (bs : List Bucket) (lo hi : Nat) : Prop :=
  bs ≠ [] ∧ List.Chain' adjB bs ∧ (∀ b ∈ bs, b.startSec ≤ b.endSec) ∧
    firstStart bs = lo ∧ lastEnd bs = hi

/-- The union of the buckets' spans is exactly the interval `[lo, hi]`. -/
def coversExactly (bs : List Bucket) (lo hi : Nat) : Prop :=
  ∀ t : Nat, (lo ≤ t ∧ t ≤ hi) ↔ ∃ b ∈ bs, b.startSec ≤ t ∧ t ≤ b.endSec

theorem lastEnd_cons (a b : Bucket) (t : List Bucket) :
    lastEnd (a :: b :: t) = lastEnd (b :: t) := rfl

theorem goodSeq_single (b : Bucket) (h : b.startSec ≤ b.endSec) :
    goodSeq [b] b.startSec b.endSec := by
  refine ⟨by simp, List.chain'_singleton b, ?_, rfl, rfl⟩
  intro x hx
  simp at hx
  subst hx
  exact h

theorem goodSeq_lo_le_hi {bs : List Bucket} {lo hi : Nat} (h : goodSeq bs lo hi) :
    lo ≤ hi := by
  obtain ⟨hne, hch, hwf, hfs, hle⟩ := h
  subst hfs hle
  induction bs with
  | nil => simp at hne
  | cons a t ih =>
    cases t with
    | nil =>
      simpa [firstStart, lastEnd] using hwf a (by simp)
    | cons b t2 =>
      rw [List.chain'_cons] at hch
      have hba : b.startSec = a.endSec + 1 := hch.1
      have h2 := ih (by simp) hch.2 (fun x hx => hwf x (by simp [hx]))
      have ha := hwf a (by simp)
      simp only [firstStart] at h2 ⊢
      rw [lastEnd_cons]
      omega

theorem goodSeq_lo_eq {bs : List Bucket} {lo lo' hi : Nat} (e : lo' = lo)
    (h : goodSeq bs lo hi) : goodSeq bs lo' hi := by
  rw [e]
  exact h

theorem goodSeq_append {l1 l2 : List Bucket} {lo m hi : Nat}
    (h1 : goodSeq l1 lo m) (h2 : goodSeq l2 (m + 1) hi) :
    goodSeq (l1 ++ l2) lo hi := by
  obtain ⟨hne1, hch1, hwf1, hfs1, hle1⟩ := h1
  obtain ⟨hne2, hch2, hwf2, hfs2, hle2⟩ := h2
  induction l1 generalizing lo with
  | nil => simp at hne1
  | cons a t ih =>
    cases t with
    | nil =>
      cases l2 with
      | nil => simp at hne2
      | cons c t2 =>
        refine ⟨by simp, ?_, ?_, ?_, ?_⟩
        · simp only [List.cons_append, List.nil_append]
          rw [List.chain'_cons]
          refine ⟨?_, hch2⟩
          unfold adjB
          simp only [firstStart] at hfs2
          simp only [lastEnd] at hle1
          omega
        · intro x hx
          simp at hx
          rcases hx with h | h | h
          · exact hwf1 x (by simp [h])
          · exact hwf2 x (by simp [h])
          · exact hwf2 x (by simp [h])
        · simpa [firstStart] using hfs1
        · simp only [List.cons_append, List.nil_append]
          rw [lastEnd_cons]
          exact hle2
    | cons b t2 =>
      rw [List.chain'_cons] at hch1
      have hrest := ih (by simp) hch1.2
        (fun x hx => hwf1 x (by simp [hx])) rfl (by rw [← hle1, lastEnd_cons])
      refine ⟨by simp, ?_, ?_, ?_, ?_⟩
      · simp only [List.cons_append]
        rw [List.chain'_cons]
        refine ⟨hch1.1, ?_⟩
        have := hrest.2.1
        simpa [List.cons_append] using this
      · intro x hx
        simp at hx
        rcases hx with h | h
        · exact hwf1 x (by simp [h])
        · exact hrest.2.2.1 x (by simp [h])
      · simpa [firstStart] using hfs1
      · simp only [List.cons_append]
        rw [lastEnd_cons]
        have := hrest.2.2.2.2
        simpa [List.cons_append] using this

theorem goodSeq_covers {bs : List Bucket} {lo hi : Nat} (h : goodSeq bs lo hi) :
    coversExactly bs lo hi := by
  obtain ⟨hne, hch, hwf, hfs, hle⟩ := h
  induction bs generalizing lo with
  | nil => simp at hne
  | cons a t ih =>
    cases t with
    | nil =>
      intro t
      simp only [firstStart] at hfs
      simp only [lastEnd] at hle
      subst hfs hle
      constructor
      · intro ht
        exact ⟨a, by simp, ht.1, ht.2⟩
      · rintro ⟨b, hb, hs, he⟩
        simp at hb
        subst hb
        exact ⟨hs, he⟩
    | cons b t2 =>
      rw [List.chain'_cons] at hch
      have hgood2 : goodSeq (b :: t2) (a.endSec + 1) hi := by
        refine ⟨by simp, hch.2, fun x hx => hwf x (by simp [hx]), ?_, ?_⟩
        · simp only [firstStart]
          have := hch.1
          unfold adjB at this
          omega
        · rw [← hle, lastEnd_cons]
      have hcov2 := ih (by simp) hch.2 (fun x hx => hwf x (by simp [hx]))
        hgood2.2.2.2.1 hgood2.2.2.2.2
      have hhi : a.endSec + 1 ≤ hi := by
        have := goodSeq_lo_le_hi hgood2
        omega
      intro t
      simp only [firstStart] at hfs
      subst hfs
      have ha := hwf a (by simp)
      constructor
      · intro ht
        by_cases hta : t ≤ a.endSec
        · exact ⟨a, by simp, ht.1, hta⟩
        · have := (hcov2 t).mp ⟨by omega, ht.2⟩
          obtain ⟨c, hc, hcs, hce⟩ := this
          exact ⟨c, by simp [hc], hcs, hce⟩
      · rintro ⟨c, hc, hcs, hce⟩
        simp at hc
        rcases hc with hc | hc
        · subst hc
          constructor
          · exact hcs
          · omega
        · have := (hcov2 t).mpr ⟨c, by simp [hc], hcs, hce⟩
          constructor
          · omega
          · exact this.2

/-! ## Per-branch chain lemmas -/

theorem daysBeforeMonth_lt_succ (y m : Nat) (h1 : 1 ≤ m) (h2 : m ≤ 11) :
    daysBeforeMonth y m < daysBeforeMonth y (m + 1) := by
  interval_cases m <;> by_cases hL : isLeap y = true <;> simp [daysBeforeMonth, hL]

theorem daysBeforeMonth_ge (y m : Nat) (h1 : 2 ≤ m) (h2 : m ≤ 12) :
    31 ≤ daysBeforeMonth y m := by
  interval_cases m <;> by_cases hL : isLeap y = true <;> simp [daysBeforeMonth, hL]

theorem dtEnd_succ_day {y1 m1 d1 y2 m2 d2 : Nat}
    (h : toordinal y1 m1 d1 + 1 = toordinal y2 m2 d2) (hd : 1 ≤ d1) :
    dtEndSec y1 m1 d1 + 1 = dtSec y2 m2 d2 := by
  have h1 := toordinal_pos y1 m1 d1 hd
  unfold dtEndSec dtSec
  omega

theorem toordinal_mar31_succ (y : Nat) : toordinal y 3 31 + 1 = toordinal y 4 1 := by
  unfold toordinal
  by_cases hL : isLeap y = true <;> simp [daysBeforeMonth, hL]

theorem toordinal_jun30_succ (y : Nat) : toordinal y 6 30 + 1 = toordinal y 7 1 := by
  unfold toordinal
  by_cases hL : isLeap y = true <;> simp [daysBeforeMonth, hL]

theorem toordinal_sep30_succ (y : Nat) : toordinal y 9 30 + 1 = toordinal y 10 1 := by
  unfold toordinal
  by_cases hL : isLeap y = true <;> simp [daysBeforeMonth, hL]

theorem toordinal_le_same_year (y m1 d1 m2 d2 : Nat)
    (h : daysBeforeMonth y m1 + d1 ≤ daysBeforeMonth y m2 + d2) :
    toordinal y m1 d1 ≤ toordinal y m2 d2 := by
  unfold toordinal
  omega

theorem dtSec_le_dtEndSec_same_year (y m1 d1 m2 d2 : Nat)
    (h : daysBeforeMonth y m1 + d1 ≤ daysBeforeMonth y m2 + d2) :
    dtSec y m1 d1 ≤ dtEndSec y m2 d2 := by
  have := toordinal_le_same_year y m1 d1 m2 d2 h
  unfold dtEndSec dtSec
  omega

/-- Each calendar-year bucket is a good one-element sequence. -/
theorem yearBucket_goodSeq (y : Nat) (lbl : String) :
    goodSeq [⟨dtSec y 1 1, dtEndSec y 12 31, lbl⟩] (dtSec y 1 1) (dtEndSec y 12 31) :=
  goodSeq_single _ (dtSec_le_dtEndSec_same_year y 1 1 12 31
    (by by_cases hL : isLeap y = true <;> simp [daysBeforeMonth, hL]))

/-- The four quarter buckets of one year form a good sequence spanning it. -/
theorem quarterYear_goodSeq (y : Nat) :
    goodSeq (quarterTable.map fun q =>
        (⟨dtSec y q.2.1.1 q.2.1.2, dtEndSec y q.2.2.1 q.2.2.2,
          toString y ++ "-Q" ++ toString q.1⟩ : Bucket))
      (dtSec y 1 1) (dtEndSec y 12 31) := by
  have w1 : dtSec y 1 1 ≤ dtEndSec y 3 31 := dtSec_le_dtEndSec_same_year y 1 1 3 31
    (by by_cases hL : isLeap y = true <;> simp [daysBeforeMonth, hL])
  have w2 : dtSec y 4 1 ≤ dtEndSec y 6 30 := dtSec_le_dtEndSec_same_year y 4 1 6 30
    (by by_cases hL : isLeap y = true <;> simp [daysBeforeMonth, hL])
  have w3 : dtSec y 7 1 ≤ dtEndSec y 9 30 := dtSec_le_dtEndSec_same_year y 7 1 9 30
    (by by_cases hL : isLeap y = true <;> simp [daysBeforeMonth, hL])
  have w4 : dtSec y 10 1 ≤ dtEndSec y 12 31 := dtSec_le_dtEndSec_same_year y 10 1 12 31
    (by by_cases hL : isLeap y = true <;> simp [daysBeforeMonth, hL])
  have a1 := dtEnd_succ_day (toordinal_mar31_succ y) (by omega)
  have a2 := dtEnd_succ_day (toordinal_jun30_succ y) (by omega)
  have a3 := dtEnd_succ_day (toordinal_sep30_succ y) (by omega)
  have g1 : goodSeq [⟨dtSec y 1 1, dtEndSec y 3 31, toString y ++ "-Q" ++ toString 1⟩]
      (dtSec y 1 1) (dtEndSec y 3 31) := goodSeq_single _ w1
  have g2 : goodSeq [⟨dtSec y 4 1, dtEndSec y 6 30, toString y ++ "-Q" ++ toString 2⟩]
      (dtSec y 4 1) (dtEndSec y 6 30) := goodSeq_single _ w2
  have g3 : goodSeq [⟨dtSec y 7 1, dtEndSec y 9 30, toString y ++ "-Q" ++ toString 3⟩]
      (dtSec y 7 1) (dtEndSec y 9 30) := goodSeq_single _ w3
  have g4 : goodSeq [⟨dtSec y 10 1, dtEndSec y 12 31, toString y ++ "-Q" ++ toString 4⟩]
      (dtSec y 10 1) (dtEndSec y 12 31) := goodSeq_single _ w4
  have g12 := goodSeq_append g1 (goodSeq_lo_eq a1 g2)
  have g34 := goodSeq_append g3 (goodSeq_lo_eq a3 g4)
  exact goodSeq_append g12 (goodSeq_lo_eq a2 g34)

theorem dtSec_month_succ_gap (y m : Nat) (h1 : 1 ≤ m) (h2 : m ≤ 11) :
    dtSec y m 1 + 86400 ≤ dtSec y (m + 1) 1 := by
  have h := daysBeforeMonth_lt_succ y m h1 h2
  unfold dtSec toordinal
  omega

/-- The month buckets of one year, from month `m` through December, form a
good sequence from the start of month `m` to the end of the year. -/
theorem monthRange_goodSeq (y : Nat) : ∀ k m, 1 ≤ m → m + k = 12 →
    goodSeq ((List.range' m (k + 1)).map fun month =>
        (⟨dtSec y month 1,
          if month == 12 then dtEndSec y 12 31 else dtSec y (month + 1) 1 - 1,
          strfYM y month⟩ : Bucket))
      (dtSec y m 1) (dtEndSec y 12 31) := by
  intro k
  induction k with
  | zero =>
    intro m h1 h2
    have hm : m = 12 := by omega
    subst hm
    simp only [Nat.zero_add, List.range'_one, List.map_cons, List.map_nil]
    have h12 : ((12 : Nat) == 12) = true := by decide
    rw [h12, if_pos rfl]
    exact goodSeq_single _ (show dtSec y 12 1 ≤ dtEndSec y 12 31 from
      dtSec_le_dtEndSec_same_year y 12 1 12 31 (by omega))
  | succ k ih =>
    intro m h1 h2
    have hm : m ≤ 11 := by omega
    rw [List.range'_succ, List.map_cons]
    rw [← List.singleton_append]
    have hne : ¬((m == 12) = true) := by
      rw [beq_iff_eq]
      omega
    rw [if_neg hne]
    have hgap := dtSec_month_succ_gap y m h1 hm
    have hfirst : goodSeq [(⟨dtSec y m 1, dtSec y (m + 1) 1 - 1, strfYM y m⟩ : Bucket)]
        (dtSec y m 1) (dtSec y (m + 1) 1 - 1) :=
      goodSeq_single _ (show dtSec y m 1 ≤ dtSec y (m + 1) 1 - 1 by omega)
    have htail := ih (m + 1) (by omega) (by omega)
    exact goodSeq_append hfirst
      (goodSeq_lo_eq (show dtSec y (m + 1) 1 - 1 + 1 = dtSec y (m + 1) 1 by omega) htail)

theorem goodSeq_hi_eq {bs : List Bucket} {lo hi hi' : Nat} (e : hi' = hi)
    (h : goodSeq bs lo hi) : goodSeq bs lo hi' := by
  rw [e]
  exact h

/-- Composing per-year good sequences across the year loop
`for year in range(start_year, end_year + 1)`. -/
theorem goodSeq_years_flatMap (f : Nat → List Bucket)
    (hf : ∀ y, 1 ≤ y → goodSeq (f y) (dtSec y 1 1) (dtEndSec y 12 31)) :
    ∀ k s, 1 ≤ s →
      goodSeq ((List.range' s (k + 1)).flatMap f) (dtSec s 1 1) (dtEndSec (s + k) 12 31) := by
  intro k
  induction k with
  | zero =>
    intro s hs
    simpa using hf s hs
  | succ k ih =>
    intro s hs
    rw [List.range'_succ, List.flatMap_cons]
    have htail := ih (s + 1) (by omega)
    refine goodSeq_append (hf s hs) (goodSeq_lo_eq (dtEndSec_dec31_succ s hs) ?_)
    exact goodSeq_hi_eq (by rw [show s + 1 + k = s + (k + 1) by omega]) htail

theorem map_eq_flatMap_singleton (g : Nat → Bucket) (l : List Nat) :
    l.map g = l.flatMap fun a => [g a] := by
  induction l with
  | nil => rfl
  | cons a t ih => simp [ih]

/-! ## Fixed-day branch lemmas -/

theorem fixedBuckets_cons_eq (s last n : Nat) (h : s ≤ last) :
    fixedBuckets s last n =
      ⟨s, min (s + ((n - 1) * 86400 + 86399)) last,
        fixedLabel s (min (s + ((n - 1) * 86400 + 86399)) last)⟩ ::
        fixedBuckets (min (s + ((n - 1) * 86400 + 86399)) last + 1) last n := by
  conv_lhs => unfold fixedBuckets
  rw [dif_pos h]

theorem fixedBuckets_nil_eq (s last n : Nat) (h : ¬ s ≤ last) :
    fixedBuckets s last n = [] := by
  conv_lhs => unfold fixedBuckets
  rw [dif_neg h]

theorem fixedBuckets_goodSeq_fuel (n : Nat) :
    ∀ D s last, last + 1 - s ≤ D → s ≤ last →
      goodSeq (fixedBuckets s last n) s last := by
  intro D
  induction D with
  | zero =>
    intro s last h1 h2
    omega
  | succ D ih =>
    intro s last h1 h2
    rw [fixedBuckets_cons_eq s last n h2]
    by_cases hbig : last ≤ s + ((n - 1) * 86400 + 86399)
    · rw [Nat.min_eq_right hbig]
      rw [fixedBuckets_nil_eq _ _ _ (by omega)]
      exact goodSeq_single _ (show s ≤ last from h2)
    · rw [Nat.min_eq_left (by omega)]
      rw [← List.singleton_append]
      refine goodSeq_append
        (goodSeq_single _ (show s ≤ s + ((n - 1) * 86400 + 86399) by omega)) ?_
      exact ih (s + ((n - 1) * 86400 + 86399) + 1) last (by omega) (by omega)

theorem fixedBuckets_goodSeq (n s last : Nat) (h : s ≤ last) :
    goodSeq (fixedBuckets s last n) s last :=
  fixedBuckets_goodSeq_fuel n (last + 1 - s) s last (by omega) h

/-- Every fixed-day bucket either spans exactly `bucket_days` days
(end = start + (n-1) days at 23:59:59) or is truncated to end exactly at
`end_sec`; no bucket extends past `end_sec`. -/
theorem fixedBuckets_shape_fuel (n : Nat) :
    ∀ D s last, last + 1 - s ≤ D → ∀ b ∈ fixedBuckets s last n,
      (b.endSec = b.startSec + ((n - 1) * 86400 + 86399) ∨ b.endSec = last) ∧
        b.endSec ≤ last := by
  intro D
  induction D with
  | zero =>
    intro s last h1 b hb
    rw [fixedBuckets_nil_eq _ _ _ (by omega)] at hb
    simp at hb
  | succ D ih =>
    intro s last h1 b hb
    by_cases h2 : s ≤ last
    · rw [fixedBuckets_cons_eq s last n h2] at hb
      rcases List.mem_cons.mp hb with hb | hb
      · subst hb
        by_cases hbig : last ≤ s + ((n - 1) * 86400 + 86399)
        · rw [Nat.min_eq_right hbig]
          exact ⟨Or.inr rfl, le_refl _⟩
        · rw [Nat.min_eq_left (by omega)]
          exact ⟨Or.inl rfl, show s + ((n - 1) * 86400 + 86399) ≤ last by omega⟩
      · by_cases hbig : last ≤ s + ((n - 1) * 86400 + 86399)
        · rw [Nat.min_eq_right hbig] at hb
          rw [fixedBuckets_nil_eq _ _ _ (by omega)] at hb
          simp at hb
        · rw [Nat.min_eq_left (by omega)] at hb
          exact ih (s + ((n - 1) * 86400 + 86399) + 1) last (by omega) b hb
    · rw [fixedBuckets_nil_eq _ _ _ h2] at hb
      simp at hb

theorem fixedBuckets_length_fuel (n : Nat) (hn : 1 ≤ n) :
    ∀ D s last, last + 1 - s ≤ D →
      (fixedBuckets s last n).length = (last + 1 - s + (n * 86400 - 1)) / (n * 86400) := by
  intro D
  induction D with
  | zero =>
    intro s last h1
    rw [fixedBuckets_nil_eq _ _ _ (by omega)]
    rw [show last + 1 - s = 0 by omega]
    rw [Nat.zero_add]
    symm
    apply Nat.div_eq_of_lt
    omega
  | succ D ih =>
    intro s last h1
    by_cases h2 : s ≤ last
    · rw [fixedBuckets_cons_eq s last n h2]
      rw [List.length_cons]
      by_cases hbig : last ≤ s + ((n - 1) * 86400 + 86399)
      · rw [Nat.min_eq_right hbig]
        rw [fixedBuckets_nil_eq _ _ _ (by omega)]
        rw [List.length_nil]
        symm
        apply Nat.div_eq_of_lt_le
        · omega
        · omega
      · rw [Nat.min_eq_left (by omega)]
        rw [ih (s + ((n - 1) * 86400 + 86399) + 1) last (by omega)]
        rw [show last + 1 - (s + ((n - 1) * 86400 + 86399) + 1) + (n * 86400 - 1)
              = last + 1 - s - 1 by omega]
        rw [show last + 1 - s + (n * 86400 - 1) = (last + 1 - s - 1) + n * 86400 by omega]
        rw [Nat.add_div_right _ (show 0 < n * 86400 by omega)]
    · rw [fixedBuckets_nil_eq _ _ _ h2]
      rw [show last + 1 - s = 0 by omega]
      rw [Nat.zero_add, List.length_nil]
      symm
      apply Nat.div_eq_of_lt
      omega

/-! ## Dispatch of `generate_date_buckets` and the global chain theorem -/

theorem gdb_yearly (sy ey n : Nat) (h : n = 365 ∨ n = 366) :
    generate_date_buckets sy ey n = yearlyBuckets sy ey := by
  unfold generate_date_buckets
  rw [if_pos h]

theorem gdb_quarterly (sy ey : Nat) :
    generate_date_buckets sy ey 90 = quarterlyBuckets sy ey := by
  unfold generate_date_buckets
  rw [if_neg (by omega), if_pos rfl]

theorem gdb_monthly (sy ey : Nat) :
    generate_date_buckets sy ey 30 = monthlyBuckets sy ey := by
  unfold generate_date_buckets
  rw [if_neg (by omega), if_neg (by omega), if_pos rfl]

theorem gdb_fixed (sy ey n : Nat) (h365 : n ≠ 365) (h366 : n ≠ 366)
    (h90 : n ≠ 90) (h30 : n ≠ 30) :
    generate_date_buckets sy ey n
      = fixedBuckets (dtSec sy 1 1) (dtEndSec ey 12 31) n := by
  unfold generate_date_buckets
  rw [if_neg (by tauto), if_neg h90, if_neg h30]

theorem daysBeforeYear_le_succ (y : Nat) :
    daysBeforeYear y ≤ daysBeforeYear (y + 1) := by
  rcases Nat.eq_zero_or_pos y with h | h
  · subst h
    decide
  · rw [daysBeforeYear_succ y h]
    exact Nat.le_add_right _ _

theorem daysBeforeYear_mono {a b : Nat} (h : a ≤ b) :
    daysBeforeYear a ≤ daysBeforeYear b := by
  induction b with
  | zero => rw [Nat.le_zero.mp h]
  | succ b ih =>
    rcases Nat.lt_or_ge a (b + 1) with h2 | h2
    · exact le_trans (ih (by omega)) (daysBeforeYear_le_succ b)
    · rw [show a = b + 1 by omega]

theorem dtSec_start_le_dtEndSec (sy ey : Nat) (h : sy ≤ ey) :
    dtSec sy 1 1 ≤ dtEndSec ey 12 31 := by
  have h1 := daysBeforeYear_mono h
  have h2 := daysBeforeMonth_first sy
  have h3 := daysBeforeMonth_last ey
  unfold dtEndSec dtSec toordinal
  by_cases hL : isLeap ey = true
  · rw [if_pos hL] at h3
    omega
  · rw [if_neg hL] at h3
    omega

/-- `generate_date_buckets` always yields a contiguous, well-formed chain of
buckets running exactly from `datetime(start_year,1,1)` to
`datetime(end_year,12,31,23,59,59)`, whatever the width variant. -/
theorem generate_date_buckets_goodSeq (sy ey n : Nat)
    (hsy : 1 ≤ sy) (hse : sy ≤ ey) (hn : 1 ≤ n) :
    goodSeq (generate_date_buckets sy ey n) (dtSec sy 1 1) (dtEndSec ey 12 31) := by
  have hcnt : ey + 1 - sy = (ey - sy) + 1 := by omega
  have hend : sy + (ey - sy) = ey := by omega
  by_cases hy : n = 365 ∨ n = 366
  · rw [gdb_yearly sy ey n hy]
    unfold yearlyBuckets
    rw [map_eq_flatMap_singleton, hcnt]
    exact goodSeq_hi_eq (by rw [hend])
      (goodSeq_years_flatMap _ (fun y hy1 => yearBucket_goodSeq y _) (ey - sy) sy hsy)
  · by_cases h90 : n = 90
    · subst h90
      rw [gdb_quarterly]
      unfold quarterlyBuckets
      rw [hcnt]
      exact goodSeq_hi_eq (by rw [hend])
        (goodSeq_years_flatMap _ (fun y hy1 => quarterYear_goodSeq y) (ey - sy) sy hsy)
    · by_cases h30 : n = 30
      · subst h30
        rw [gdb_monthly]
        unfold monthlyBuckets
        rw [hcnt]
        exact goodSeq_hi_eq (by rw [hend])
          (goodSeq_years_flatMap _
            (fun y hy1 => monthRange_goodSeq y 11 1 (by omega) (by omega)) (ey - sy) sy hsy)
      · rw [gdb_fixed sy ey n (by tauto) (by tauto) h90 h30]
        exact fixedBuckets_goodSeq n _ _ (dtSec_start_le_dtEndSec sy ey hse)

/-- C1: for every `start_year <= end_year` (valid proleptic-Gregorian years)
and every positive bucket width, the buckets of `generate_date_buckets` are
chronologically ordered and contiguous (each bucket starts one second —
hence one day, ends being 23:59:59 instants — after the previous bucket
ends), every bucket is nonempty, and the union of the spans is exactly
`[datetime(start_year,1,1), datetime(end_year,12,31,23,59,59)]`, i.e. the
day interval from Jan 1 `start_year` through Dec 31 `end_year`. -/
theorem c1_buckets_partition_range (start_year end_year bucket_days : Nat)
    (hsy : 1 ≤ start_year) (hse : start_year ≤ end_year) (hn : 1 ≤ bucket_days) :
    List.Chain' adjB (generate_date_buckets start_year end_year bucket_days) ∧
    (∀ b ∈ generate_date_buckets start_year end_year bucket_days,
      b.startSec ≤ b.endSec) ∧
    coversExactly (generate_date_buckets start_year end_year bucket_days)
      (dtSec start_year 1 1) (dtEndSec end_year 12 31) := by
  have hg := generate_date_buckets_goodSeq start_year end_year bucket_days hsy hse hn
  exact ⟨hg.2.1, hg.2.2.1, goodSeq_covers hg⟩

/-- Witness for C1 at a concrete input (2024-2025, 7-day buckets). -/
theorem c1_buckets_partition_range_witness :
    (1 ≤ 2024 ∧ 2024 ≤ 2025 ∧ 1 ≤ 7) ∧
    (List.Chain' adjB (generate_date_buckets 2024 2025 7) ∧
    (∀ b ∈ generate_date_buckets 2024 2025 7, b.startSec ≤ b.endSec) ∧
    coversExactly (generate_date_buckets 2024 2025 7)
      (dtSec 2024 1 1) (dtEndSec 2025 12 31)) :=
  ⟨by omega, c1_buckets_partition_range 2024 2025 7 (by omega) (by omega) (by omega)⟩

/-! ## C8: termination / finiteness / empty range -/

theorem dtSec_jan1_mono {a b : Nat} (h : a ≤ b) : dtSec a 1 1 ≤ dtSec b 1 1 := by
  have h1 := daysBeforeYear_mono h
  have h2 := daysBeforeMonth_first a
  have h3 := daysBeforeMonth_first b
  unfold dtSec toordinal
  omega

/-- C8: the generator always terminates with a finite bucket list (it is a
total function into `List` in this model, mirroring that the Python loop
advances by at least one second per iteration); when `end_year < start_year`
the list is empty, and when `start_year <= end_year` it is nonempty. -/
theorem c8_finite_empty_range (start_year end_year bucket_days : Nat)
    (hn : 1 ≤ bucket_days) (hsy : 1 ≤ start_year) (hey : 1 ≤ end_year) :
    (end_year < start_year →
      generate_date_buckets start_year end_year bucket_days = []) ∧
    (start_year ≤ end_year →
      generate_date_buckets start_year end_year bucket_days ≠ []) := by
  constructor
  · intro hlt
    have hz : end_year + 1 - start_year = 0 := by omega
    have hfix : ¬ dtSec start_year 1 1 ≤ dtEndSec end_year 12 31 := by
      have ha := dtEndSec_dec31_succ end_year hey
      have hb := dtSec_jan1_mono (show end_year + 1 ≤ start_year by omega)
      omega
    by_cases hy : bucket_days = 365 ∨ bucket_days = 366
    · rw [gdb_yearly _ _ _ hy]
      unfold yearlyBuckets
      rw [hz]
      rfl
    · by_cases h90 : bucket_days = 90
      · subst h90
        rw [gdb_quarterly]
        unfold quarterlyBuckets
        rw [hz]
        rfl
      · by_cases h30 : bucket_days = 30
        · subst h30
          rw [gdb_monthly]
          unfold monthlyBuckets
          rw [hz]
          rfl
        · rw [gdb_fixed _ _ _ (by tauto) (by tauto) h90 h30]
          exact fixedBuckets_nil_eq _ _ _ hfix
  · intro hle
    exact (generate_date_buckets_goodSeq start_year end_year bucket_days hsy hle hn).1

/-- Witness for C8 (empty case 2026 > 2025 with 7-day buckets). -/
theorem c8_finite_empty_range_witness :
    (1 ≤ 7 ∧ 1 ≤ 2026 ∧ 1 ≤ 2025) ∧
    ((2025 < 2026 → generate_date_buckets 2026 2025 7 = []) ∧
     (2026 ≤ 2025 → generate_date_buckets 2026 2025 7 ≠ [])) :=
  ⟨by omega, c8_finite_empty_range 2026 2025 7 (by omega) (by omega) (by omega)⟩

/-! ## C2: fixed-day windows -/

/-- C2 counterexample: with `bucket_days = 90` (which the claim's reading of
`FixedDays(n)` would cover, since `generate_date_buckets` is called with
`bucket_days = n`), the second bucket of 2025 spans Apr 1 - Jun 30, i.e. 91
days, although it is not the final bucket (there are 4), and it is not
truncated at Dec 31: the fixed-window shape fails for the calendar widths. -/
theorem c2_counterexample_90 :
    (generate_date_buckets 2025 2025 90).length = 4 ∧
    ((generate_date_buckets 2025 2025 90).getD 1 ⟨0, 0, ""⟩).endSec
      ≠ ((generate_date_buckets 2025 2025 90).getD 1 ⟨0, 0, ""⟩).startSec
        + ((90 - 1) * 86400 + 86399) ∧
    ((generate_date_buckets 2025 2025 90).getD 1 ⟨0, 0, ""⟩).endSec
      ≠ dtEndSec 2025 12 31 := by
  decide

/-- C2 (amended to the widths actually routed to the fixed-day loop, i.e.
positive `n` other than 365/366/90/30): the first window starts at
`datetime(start_year,1,1)`; windows are consecutive; every window except the
last spans exactly `n` days (end = start + (n-1) days + 23:59:59); no window
extends past `datetime(end_year,12,31,23,59,59)`; and the final window ends
exactly there. -/
theorem c2_fixed_day_windows (sy ey n : Nat)
    (hsy : 1 ≤ sy) (hse : sy ≤ ey) (hn : 1 ≤ n)
    (h365 : n ≠ 365) (h366 : n ≠ 366) (h90 : n ≠ 90) (h30 : n ≠ 30) :
    generate_date_buckets sy ey n ≠ [] ∧
    firstStart (generate_date_buckets sy ey n) = dtSec sy 1 1 ∧
    List.Chain' adjB (generate_date_buckets sy ey n) ∧
    lastEnd (generate_date_buckets sy ey n) = dtEndSec ey 12 31 ∧
    (∀ b ∈ generate_date_buckets sy ey n, b.endSec ≤ dtEndSec ey 12 31) ∧
    (∀ (i : Nat) (h : i < (generate_date_buckets sy ey n).length - 1),
      ((generate_date_buckets sy ey n).get ⟨i, by omega⟩).endSec
        = ((generate_date_buckets sy ey n).get ⟨i, by omega⟩).startSec
          + ((n - 1) * 86400 + 86399)) := by
  have hge := dtSec_start_le_dtEndSec sy ey hse
  rw [gdb_fixed sy ey n h365 h366 h90 h30]
  have hg := fixedBuckets_goodSeq n _ _ hge
  have hshape := fixedBuckets_shape_fuel n (dtEndSec ey 12 31 + 1 - dtSec sy 1 1)
    (dtSec sy 1 1) (dtEndSec ey 12 31) (by omega)
  obtain ⟨hne, hch, hwf, hfs, hle⟩ := hg
  refine ⟨hne, hfs, hch, hle, fun b hb => (hshape b hb).2, ?_⟩
  intro i h
  have hchain := List.chain'_iff_get.mp hch i h
  have hmem : (fixedBuckets (dtSec sy 1 1) (dtEndSec ey 12 31) n).get ⟨i, by omega⟩
      ∈ fixedBuckets (dtSec sy 1 1) (dtEndSec ey 12 31) n := List.get_mem _ _ _
  have hmem2 : (fixedBuckets (dtSec sy 1 1) (dtEndSec ey 12 31) n).get ⟨i + 1, by omega⟩
      ∈ fixedBuckets (dtSec sy 1 1) (dtEndSec ey 12 31) n := List.get_mem _ _ _
  have hs1 := hshape _ hmem
  have hs2 := hshape _ hmem2
  have hwf2 := hwf _ hmem2
  unfold adjB at hchain
  rcases hs1.1 with he | he
  · exact he
  · exfalso
    have := hs2.2
    omega

/-- Witness for the amended C2 at `FixedDays(10)` over 2025-2025. -/
theorem c2_fixed_day_windows_witness :
    (1 ≤ 2025 ∧ 2025 ≤ 2025 ∧ 1 ≤ 10 ∧
      (10 : Nat) ≠ 365 ∧ (10 : Nat) ≠ 366 ∧ (10 : Nat) ≠ 90 ∧ (10 : Nat) ≠ 30) ∧
    (generate_date_buckets 2025 2025 10 ≠ [] ∧
    firstStart (generate_date_buckets 2025 2025 10) = dtSec 2025 1 1 ∧
    List.Chain' adjB (generate_date_buckets 2025 2025 10) ∧
    lastEnd (generate_date_buckets 2025 2025 10) = dtEndSec 2025 12 31 ∧
    (∀ b ∈ generate_date_buckets 2025 2025 10, b.endSec ≤ dtEndSec 2025 12 31) ∧
    (∀ (i : Nat) (h : i < (generate_date_buckets 2025 2025 10).length - 1),
      ((generate_date_buckets 2025 2025 10).get ⟨i, by omega⟩).endSec
        = ((generate_date_buckets 2025 2025 10).get ⟨i, by omega⟩).startSec
          + ((10 - 1) * 86400 + 86399))) :=
  ⟨by omega, c2_fixed_day_windows 2025 2025 10 (by omega) (by omega) (by omega)
    (by omega) (by omega) (by omega) (by omega)⟩

/-! ## C7: calendar quarter structure -/

theorem range'_split (m : Nat) : ∀ s n : Nat,
    List.range' s (m + n) = List.range' s m ++ List.range' (s + m) n := by
  induction m with
  | zero =>
    intro s n
    simp
  | succ m ih =>
    intro s n
    rw [show m + 1 + n = (m + n) + 1 by omega, List.range'_succ, ih (s + 1) n,
      List.range'_succ, List.cons_append, show s + 1 + m = s + (m + 1) by omega]

theorem flatMap_const_length (f : Nat → List Bucket) (c : Nat)
    (hf : ∀ y, (f y).length = c) :
    ∀ l : List Nat, (l.flatMap f).length = c * l.length := by
  intro l
  induction l with
  | nil => simp
  | cons a t ih =>
    rw [List.flatMap_cons, List.length_append, hf, ih, List.length_cons, Nat.mul_succ]
    omega

theorem quarterList_eq (y : Nat) :
    (quarterTable.map fun q =>
      (⟨dtSec y q.2.1.1 q.2.1.2, dtEndSec y q.2.2.1 q.2.2.2,
        toString y ++ "-Q" ++ toString q.1⟩ : Bucket))
    = [⟨dtSec y 1 1, dtEndSec y 3 31, toString y ++ "-Q1"⟩,
       ⟨dtSec y 4 1, dtEndSec y 6 30, toString y ++ "-Q2"⟩,
       ⟨dtSec y 7 1, dtEndSec y 9 30, toString y ++ "-Q3"⟩,
       ⟨dtSec y 10 1, dtEndSec y 12 31, toString y ++ "-Q4"⟩] := by
  have h1 : "-Q" ++ toString (1 : Nat) = "-Q1" := rfl
  have h2 : "-Q" ++ toString (2 : Nat) = "-Q2" := rfl
  have h3 : "-Q" ++ toString (3 : Nat) = "-Q3" := rfl
  have h4 : "-Q" ++ toString (4 : Nat) = "-Q4" := rfl
  simp [quarterTable, String.append_assoc, h1, h2, h3, h4]

/-- C7: with `bucket_days = 90` the generator yields exactly four buckets per
year; for each year `Y` in range they appear consecutively at offset
`4 * (Y - start_year)`, spanning Jan 1 - Mar 31, Apr 1 - Jun 30,
Jul 1 - Sep 30 and Oct 1 - Dec 31 of `Y`, labelled `"{Y}-Q1"`..`"{Y}-Q4"`
in that order; in particular a single-year range yields exactly 4 buckets. -/
theorem c7_quarter_buckets (sy ey y : Nat) (h1 : sy ≤ y) (h2 : y ≤ ey) :
    (generate_date_buckets sy ey 90).length = 4 * (ey + 1 - sy) ∧
    ∃ pre post,
      generate_date_buckets sy ey 90
        = pre ++ ([⟨dtSec y 1 1, dtEndSec y 3 31, toString y ++ "-Q1"⟩,
                   ⟨dtSec y 4 1, dtEndSec y 6 30, toString y ++ "-Q2"⟩,
                   ⟨dtSec y 7 1, dtEndSec y 9 30, toString y ++ "-Q3"⟩,
                   ⟨dtSec y 10 1, dtEndSec y 12 31, toString y ++ "-Q4"⟩] ++ post)
        ∧ pre.length = 4 * (y - sy) := by
  rw [gdb_quarterly]
  unfold quarterlyBuckets
  have hlen4 : ∀ z : Nat, ((quarterTable.map fun q =>
      (⟨dtSec z q.2.1.1 q.2.1.2, dtEndSec z q.2.2.1 q.2.2.2,
        toString z ++ "-Q" ++ toString q.1⟩ : Bucket))).length = 4 := by
    intro z
    simp [quarterTable]
  constructor
  · rw [flatMap_const_length _ 4 hlen4, List.length_range']
  · refine ⟨(List.range' sy (y - sy)).flatMap (fun year => quarterTable.map fun q =>
        (⟨dtSec year q.2.1.1 q.2.1.2, dtEndSec year q.2.2.1 q.2.2.2,
          toString year ++ "-Q" ++ toString q.1⟩ : Bucket)),
      (List.range' (y + 1) (ey - y)).flatMap (fun year => quarterTable.map fun q =>
        (⟨dtSec year q.2.1.1 q.2.1.2, dtEndSec year q.2.2.1 q.2.2.2,
          toString year ++ "-Q" ++ toString q.1⟩ : Bucket)),
      ?_, ?_⟩
    · rw [show ey + 1 - sy = (y - sy) + ((ey - y) + 1) by omega]
      rw [range'_split (y - sy) sy ((ey - y) + 1)]
      rw [show sy + (y - sy) = y by omega]
      rw [show (ey - y) + 1 = 1 + (ey - y) by omega]
      rw [range'_split 1 y (ey - y)]
      rw [List.range'_one, show y + 1 = y + 1 from rfl]
      rw [List.flatMap_append, List.flatMap_append, List.flatMap_cons, List.flatMap_nil]
      rw [quarterList_eq y]
      simp [List.append_assoc]
    · rw [flatMap_const_length _ 4 hlen4, List.length_range']

/-- Witness for C7 over the single year 2025. -/
theorem c7_quarter_buckets_witness :
    (2025 ≤ 2025 ∧ 2025 ≤ 2025) ∧
    ((generate_date_buckets 2025 2025 90).length = 4 * (2025 + 1 - 2025) ∧
    ∃ pre post,
      generate_date_buckets 2025 2025 90
        = pre ++ ([⟨dtSec 2025 1 1, dtEndSec 2025 3 31, toString 2025 ++ "-Q1"⟩,
                   ⟨dtSec 2025 4 1, dtEndSec 2025 6 30, toString 2025 ++ "-Q2"⟩,
                   ⟨dtSec 2025 7 1, dtEndSec 2025 9 30, toString 2025 ++ "-Q3"⟩,
                   ⟨dtSec 2025 10 1, dtEndSec 2025 12 31, toString 2025 ++ "-Q4"⟩] ++ post)
        ∧ pre.length = 4 * (2025 - 2025)) :=
  ⟨by omega, c7_quarter_buckets 2025 2025 2025 (by omega) (by omega)⟩

/-! ## C10: `year_to_bucket_count` versus the generated bucket count -/

theorem ceil_div_scale (a b k : Nat) (hb : 1 ≤ b) (hk : 1 ≤ k) :
    (a * k + b * k - 1) / (b * k) = (a + b - 1) / b := by
  have hbk : 0 < b * k := Nat.mul_pos (by omega) (by omega)
  rcases Nat.eq_zero_or_pos a with ha | ha
  · subst ha
    rw [Nat.zero_mul, Nat.zero_add, Nat.zero_add]
    rw [Nat.div_eq_of_lt (by omega), Nat.div_eq_of_lt (by omega)]
  · set q := (a + b - 1) / b with hq
    set r := (a + b - 1) % b with hr
    have hrb : r < b := by
      rw [hr]
      exact Nat.mod_lt _ (by omega)
    have hab : a + b = b * q + r + 1 := by
      rw [hq, hr, Nat.div_add_mod]
      omega
    have key1 : q * (b * k) + (r * k + k) = a * k + b * k := by
      calc q * (b * k) + (r * k + k) = (b * q + r + 1) * k := by ring
        _ = (a + b) * k := by rw [← hab]
        _ = a * k + b * k := by rw [Nat.add_mul]
    have hrk : r * k + k ≤ b * k := by
      have h1 : (r + 1) * k ≤ b * k := Nat.mul_le_mul_right k (by omega)
      calc r * k + k = (r + 1) * k := by rw [Nat.add_mul, Nat.one_mul]
        _ ≤ b * k := h1
    have hak : k ≤ a * k := by
      calc k = 1 * k := (Nat.one_mul k).symm
        _ ≤ a * k := Nat.mul_le_mul_right k ha
    have hpos : 0 < a * k + b * k :=
      Nat.lt_of_lt_of_le (show 0 < k by omega) (le_trans hak (Nat.le_add_right _ _))
    apply Nat.div_eq_of_lt_le
    · have e1 : q * (b * k) < a * k + b * k := by
        rw [← key1]
        have h1 : 0 < r * k + k :=
          Nat.lt_of_lt_of_le (show 0 < k by omega) (Nat.le_add_left k (r * k))
        exact Nat.lt_add_of_pos_right h1
      exact Nat.le_sub_one_of_lt e1
    · have hsucc : (q + 1) * (b * k) = q * (b * k) + b * k := by ring
      rw [hsucc]
      have e2 : a * k + b * k ≤ q * (b * k) + b * k := by
        rw [← key1]
        exact Nat.add_le_add_left hrk _
      exact Nat.lt_of_lt_of_le (Nat.sub_lt hpos (by omega)) e2

theorem toordinal_start_le (sy ey : Nat) (h : sy ≤ ey) :
    toordinal sy 1 1 ≤ toordinal ey 12 31 := by
  have h1 := daysBeforeYear_mono h
  have h2 := daysBeforeMonth_first sy
  unfold toordinal
  omega

theorem fdiv_ofNat (p q : Nat) : Int.fdiv (p : Int) (q : Int) = ((p / q : Nat) : Int) :=
  (Int.ofNat_fdiv p q).symm

theorem year_to_bucket_count_eq_nat (sy ey n : Nat) (hn : 1 ≤ n)
    (h : toordinal sy 1 1 ≤ toordinal ey 12 31) :
    year_to_bucket_count sy ey n
      = ((toordinal ey 12 31 - toordinal sy 1 1 + n) / n : Nat) := by
  simp only [year_to_bucket_count]
  have hcast : ((toordinal ey 12 31 : Int) - (toordinal sy 1 1 : Int)) + 1 + (n : Int) - 1
      = ((toordinal ey 12 31 - toordinal sy 1 1 + n : Nat) : Int) := by
    push_cast [h]
    ring
  rw [hcast, fdiv_ofNat]

/-- C10 counterexample: over the single year 2025 with `bucket_days = 30`
(the calendar-month width), `year_to_bucket_count` returns the ceiling
division `ceil(365/30) = 13` while `generate_date_buckets` yields the 12
calendar months. -/
theorem c10_counterexample_30 :
    year_to_bucket_count 2025 2025 30
        ≠ ((generate_date_buckets 2025 2025 30).length : Int) ∧
    year_to_bucket_count 2025 2025 30 = 13 ∧
    (generate_date_buckets 2025 2025 30).length = 12 := by
  decide

/-- C10 (amended to the widths actually routed to the fixed-day loop):
for positive `n` other than 365/366/90/30 and `start_year <= end_year`,
`year_to_bucket_count` — the ceiling division of the total day count by
`n` — equals the number of buckets `generate_date_buckets` produces. -/
theorem c10_count_matches_generator (sy ey n : Nat)
    (hsy : 1 ≤ sy) (hse : sy ≤ ey) (hn : 1 ≤ n)
    (h365 : n ≠ 365) (h366 : n ≠ 366) (h90 : n ≠ 90) (h30 : n ≠ 30) :
    year_to_bucket_count sy ey n = ((generate_date_buckets sy ey n).length : Int) := by
  have hord := toordinal_start_le sy ey hse
  rw [gdb_fixed sy ey n h365 h366 h90 h30]
  rw [fixedBuckets_length_fuel n hn (dtEndSec ey 12 31 + 1 - dtSec sy 1 1)
    (dtSec sy 1 1) (dtEndSec ey 12 31) (le_refl _)]
  have h1 := toordinal_pos sy 1 1 (by omega)
  have h2 := toordinal_pos ey 12 31 (by omega)
  have hsec : dtEndSec ey 12 31 + 1 - dtSec sy 1 1
      = (toordinal ey 12 31 - toordinal sy 1 1 + 1) * 86400 := by
    unfold dtEndSec dtSec
    omega
  rw [hsec]
  rw [show (toordinal ey 12 31 - toordinal sy 1 1 + 1) * 86400 + (n * 86400 - 1)
        = (toordinal ey 12 31 - toordinal sy 1 1 + 1) * 86400 + n * 86400 - 1 by omega]
  rw [ceil_div_scale (toordinal ey 12 31 - toordinal sy 1 1 + 1) n 86400 hn (by omega)]
  rw [year_to_bucket_count_eq_nat sy ey n hn hord]
  rw [show toordinal ey 12 31 - toordinal sy 1 1 + 1 + n - 1
        = toordinal ey 12 31 - toordinal sy 1 1 + n by omega]

/-- Witness for the amended C10 (10-day buckets over 2025: `ceil(365/10) = 37`). -/
theorem c10_count_matches_generator_witness :
    (1 ≤ 2025 ∧ 2025 ≤ 2025 ∧ 1 ≤ 10 ∧
      (10 : Nat) ≠ 365 ∧ (10 : Nat) ≠ 366 ∧ (10 : Nat) ≠ 90 ∧ (10 : Nat) ≠ 30) ∧
    year_to_bucket_count 2025 2025 10 = ((generate_date_buckets 2025 2025 10).length : Int) :=
  ⟨by omega, c10_count_matches_generator 2025 2025 10 (by omega) (by omega) (by omega)
    (by omega) (by omega) (by omega) (by omega)⟩

/-! ## Source adapters (src/sources/github.py, news.py, twitter.py,
youtube.py, packages.py)

HTTP traffic is abstracted by oracles: `response i` is the outcome of the
i-th network call of a `get_range` session (`none` = the request raised the
exception caught in the adapter), and `env` is `os.environ.get`. Each
`get_range` model returns its rows together with the number of network
requests issued. -/

/-- Truthiness of `if not api_key:` — `os.environ.get` returns `None` when
the variable is absent, and the empty string is also falsy. -/
def missingCred (v : Option String) : Bool :=
  match v with
  | none => true
  | some s => s == ""

structure GHStats where
  total_count : Nat
  total_stars : Nat
  total_forks : Nat
  total_watchers : Nat
deriving DecidableEq, Repr

/-- `search_repositories` (github.py lines 14-72): a successful request
yields the aggregated stats; a `requests.exceptions.RequestException` is
caught and yields all-zero stats. -/
def search_repositories (response : Option GHStats) : GHStats :=
  match response with
  | some s => s
  | none => ⟨0, 0, 0, 0⟩

structure GHRow where
  period : String
  start_date : String
  end_date : String
  repo_count : Nat
  total_stars : Nat
  total_forks : Nat
  total_watchers : Nat
deriving DecidableEq, Repr

/-- `github.get_range` (github.py lines 75-121): one row per bucket of
`generate_date_buckets`, in bucket order; row fields from the bucket label,
the `%Y-%m-%d`-formatted bucket bounds, and the (possibly zero-filled)
stats of the i-th call. -/
def github_get_range (search_term : String) (response : Nat → Option GHStats)
    (start_year end_year bucket_days : Nat) : List GHRow :=
  (generate_date_buckets start_year end_year bucket_days).enum.map fun p =>
    let result := search_repositories (response p.1)
    { period := p.2.label
      start_date := strfYMD p.2.startSec
      end_date := strfYMD p.2.endSec
      repo_count := result.total_count
      total_stars := result.total_stars
      total_forks := result.total_forks
      total_watchers := result.total_watchers }

structure NewsRow where
  period : String
  start_date : String
  end_date : String
  article_count : Nat
  source_count : Nat
deriving DecidableEq, Repr

/-- Zero-filled news row for a bucket (news.py lines 96-104). -/
def zeroNewsRow (b : Bucket) : NewsRow :=
  ⟨b.label, strfYMD b.startSec, strfYMD b.endSec, 0, 0⟩

/-- `search_news` (news.py lines 20-68): any exception is caught and yields
zero counts. A successful response gives `(article_count, source_count)`. -/
def search_news (response : Option (Nat × Nat)) : Nat × Nat :=
  match response with
  | some r => r
  | none => (0, 0)

/-- `news.get_range` (news.py lines 71-149). With `NEWS_API_KEY` unset (or
empty) it builds one zero row per bucket and makes no requests; otherwise it
calls `search_news` per bucket unless the bucket ended more than 30 days
before `nowSec` (`datetime.now()`), in which case the row is zero-filled
without a request. Second component: number of network requests issued. -/
def news_get_range (search_term : String) (env : String → Option String)
    (response : Nat → Option (Nat × Nat)) (nowSec : Nat)
    (start_year end_year bucket_days : Nat) : List NewsRow × Nat :=
  if missingCred (env "NEWS_API_KEY") then
    ((generate_date_buckets start_year end_year bucket_days).map zeroNewsRow, 0)
  else
    ((generate_date_buckets start_year end_year bucket_days).enum.map fun p =>
      let result := if p.2.endSec + 30 * 86400 < nowSec then (0, 0)
        else search_news (response p.1)
      ⟨p.2.label, strfYMD p.2.startSec, strfYMD p.2.endSec, result.1, result.2⟩,
     (generate_date_buckets start_year end_year bucket_days).countP
       fun b => ! decide (b.endSec + 30 * 86400 < nowSec))

structure TwitterRow where
  period : String
  start_date : String
  end_date : String
  tweet_count : Nat
deriving DecidableEq, Repr

/-- Zero-filled twitter row for a bucket (twitter.py lines 85-92). -/
def zeroTwitterRow (b : Bucket) : TwitterRow :=
  ⟨b.label, strfYMD b.startSec, strfYMD b.endSec, 0⟩

/-- `search_tweets` (twitter.py lines 20-61): exceptions caught, zero count. -/
def search_tweets (response : Option Nat) : Nat :=
  match response with
  | some r => r
  | none => 0

/-- `twitter.get_range` (twitter.py lines 64-128). -/
def twitter_get_range (search_term : String) (env : String → Option String)
    (response : Nat → Option Nat)
    (start_year end_year bucket_days : Nat) : List TwitterRow × Nat :=
  if missingCred (env "TWITTER_BEARER_TOKEN") then
    ((generate_date_buckets start_year end_year bucket_days).map zeroTwitterRow, 0)
  else
    ((generate_date_buckets start_year end_year bucket_days).enum.map fun p =>
      ⟨p.2.label, strfYMD p.2.startSec, strfYMD p.2.endSec, search_tweets (response p.1)⟩,
     (generate_date_buckets start_year end_year bucket_days).length)

structure YoutubeRow where
  period : String
  start_date : String
  end_date : String
  video_count : Nat
  total_views : Nat
  avg_views : Nat
deriving DecidableEq, Repr

/-- Zero-filled youtube row for a bucket (youtube.py lines 149-158). -/
def zeroYoutubeRow (b : Bucket) : YoutubeRow :=
  ⟨b.label, strfYMD b.startSec, strfYMD b.endSec, 0, 0, 0⟩

/-- `search_videos` (youtube.py lines 20-79): `(video_count, total_views,
int(avg_views))` on success, zeros on a caught request exception. -/
def search_videos (response : Option (Nat × Nat × Nat)) : Nat × Nat × Nat :=
  match response with
  | some r => r
  | none => (0, 0, 0)

/-- `youtube.get_range` (youtube.py lines 124-192). -/
def youtube_get_range (search_term : String) (env : String → Option String)
    (response : Nat → Option (Nat × Nat × Nat))
    (start_year end_year bucket_days : Nat) : List YoutubeRow × Nat :=
  if missingCred (env "YOUTUBE_API_KEY") then
    ((generate_date_buckets start_year end_year bucket_days).map zeroYoutubeRow, 0)
  else
    ((generate_date_buckets start_year end_year bucket_days).enum.map fun p =>
      let r := search_videos (response p.1)
      ⟨p.2.label, strfYMD p.2.startSec, strfYMD p.2.endSec, r.1, r.2.1, r.2.2⟩,
     (generate_date_buckets start_year end_year bucket_days).length)

structure PkgRow where
  period : String
  start_date : String
  end_date : String
  registry : String
  package : String
  downloads : Nat
deriving DecidableEq, Repr

/-- `get_pypi_downloads` (packages.py lines 18-56): exceptions caught, 0. -/
def get_pypi_downloads (response : Option Nat) : Nat :=
  match response with
  | some r => r
  | none => 0

/-- `packages.get_range` (packages.py lines 87-155). The adapter checks NO
environment variable at all (pypistats needs no auth); `env` is a parameter
of the model only so that the missing-credential claim can be stated against
it. For `registry = "pypi"` it performs one network request per bucket
unconditionally; the stub `npm`/`maven` registries build zero rows without
requests; any other registry yields an empty table. -/
def packages_get_range (search_term : String) (env : String → Option String)
    (response : Nat → Option Nat) (start_year end_year bucket_days : Nat)
    (registry : String) : List PkgRow × Nat :=
  if registry = "pypi" then
    ((generate_date_buckets start_year end_year bucket_days).enum.map fun p =>
      ⟨p.2.label, strfYMD p.2.startSec, strfYMD p.2.endSec, "pypi", search_term,
        get_pypi_downloads (response p.1)⟩,
     (generate_date_buckets start_year end_year bucket_days).length)
  else if registry = "npm" then
    ((generate_date_buckets start_year end_year bucket_days).map fun b =>
      ⟨b.label, strfYMD b.startSec, strfYMD b.endSec, "npm", search_term, 0⟩, 0)
  else if registry = "maven" then
    ((generate_date_buckets start_year end_year bucket_days).map fun b =>
      ⟨b.label, strfYMD b.startSec, strfYMD b.endSec, "maven", search_term, 0⟩, 0)
  else ([], 0)

/-! ## C3: the range fetch (github.get_range) -/

/-- C3: for every sequence of adapter responses (in particular all-failing),
`github.get_range` emits exactly one row per generated bucket in bucket
order; each row carries the bucket label as `period` and the bucket bounds
formatted `%Y-%m-%d` as `start_date`/`end_date`; a failed fetch contributes
a zero-metric row instead of being dropped. -/
theorem c3_github_range_rows (search_term : String) (response : Nat → Option GHStats)
    (start_year end_year bucket_days : Nat) :
    (github_get_range search_term response start_year end_year bucket_days).length
      = (generate_date_buckets start_year end_year bucket_days).length ∧
    (∀ i : Nat,
      (github_get_range search_term response start_year end_year bucket_days)[i]?
        = ((generate_date_buckets start_year end_year bucket_days)[i]?).map fun b =>
            { period := b.label
              start_date := strfYMD b.startSec
              end_date := strfYMD b.endSec
              repo_count := (search_repositories (response i)).total_count
              total_stars := (search_repositories (response i)).total_stars
              total_forks := (search_repositories (response i)).total_forks
              total_watchers := (search_repositories (response i)).total_watchers }) ∧
    (∀ i : Nat, response i = none →
      ((github_get_range search_term response start_year end_year bucket_days)[i]?).all
        fun row => row.repo_count == 0 && row.total_stars == 0 &&
          row.total_forks == 0 && row.total_watchers == 0) := by
  refine ⟨?_, ?_, ?_⟩
  · unfold github_get_range
    rw [List.length_map, List.enum_length]
  · intro i
    unfold github_get_range
    rw [List.getElem?_map, List.getElem?_enum]
    cases (generate_date_buckets start_year end_year bucket_days)[i]? <;> rfl
  · intro i hi
    unfold github_get_range
    rw [List.getElem?_map, List.getElem?_enum]
    cases (generate_date_buckets start_year end_year bucket_days)[i]? with
    | none => rfl
    | some b =>
      simp only [Option.map_some', Option.all_some]
      rw [hi]
      rfl

/-! ## C4: credential-gated adapters -/

/-- C4 counterexample: the package-registry adapter is not credential-gated.
With every environment variable absent it still issues one network request
per bucket when fetching (registry `"pypi"`, the registry the orchestrator
passes): over 2025-2025 yearly it makes 1 request, not 0. -/
theorem c4_counterexample_packages :
    (packages_get_range "numpy" (fun _ => none) (fun _ => none) 2025 2025 365 "pypi").2
      = 1 := by
  decide

/-- C4 (amended to the adapters that are actually credential-gated: news,
twitter/social-mention, and video): when the required environment variable
is absent (or empty), `get_range` short-circuits before any request — zero
network calls — and returns one row per generated bucket over the full
range, with the bucket label and `%Y-%m-%d` bounds and all metric fields
zero. -/
theorem c4_missing_credentials_zero_rows (term : String) (env : String → Option String)
    (respN : Nat → Option (Nat × Nat)) (nowSec : Nat)
    (respT : Nat → Option Nat) (respY : Nat → Option (Nat × Nat × Nat))
    (start_year end_year bucket_days : Nat)
    (hN : missingCred (env "NEWS_API_KEY") = true)
    (hT : missingCred (env "TWITTER_BEARER_TOKEN") = true)
    (hY : missingCred (env "YOUTUBE_API_KEY") = true) :
    news_get_range term env respN nowSec start_year end_year bucket_days
      = ((generate_date_buckets start_year end_year bucket_days).map zeroNewsRow, 0) ∧
    twitter_get_range term env respT start_year end_year bucket_days
      = ((generate_date_buckets start_year end_year bucket_days).map zeroTwitterRow, 0) ∧
    youtube_get_range term env respY start_year end_year bucket_days
      = ((generate_date_buckets start_year end_year bucket_days).map zeroYoutubeRow, 0) := by
  refine ⟨?_, ?_, ?_⟩
  · unfold news_get_range
    rw [if_pos hN]
  · unfold twitter_get_range
    rw [if_pos hT]
  · unfold youtube_get_range
    rw [if_pos hY]

/-- Witness for the amended C4 with an empty environment over 2025-2025. -/
theorem c4_missing_credentials_zero_rows_witness :
    (missingCred ((fun _ => none : String → Option String) "NEWS_API_KEY") = true ∧
     missingCred ((fun _ => none : String → Option String) "TWITTER_BEARER_TOKEN") = true ∧
     missingCred ((fun _ => none : String → Option String) "YOUTUBE_API_KEY") = true) ∧
    (news_get_range "AI" (fun _ => none) (fun _ => none) 0 2025 2025 365
      = ((generate_date_buckets 2025 2025 365).map zeroNewsRow, 0) ∧
    twitter_get_range "AI" (fun _ => none) (fun _ => none) 2025 2025 365
      = ((generate_date_buckets 2025 2025 365).map zeroTwitterRow, 0) ∧
    youtube_get_range "AI" (fun _ => none) (fun _ => none) 2025 2025 365
      = ((generate_date_buckets 2025 2025 365).map zeroYoutubeRow, 0)) :=
  ⟨⟨rfl, rfl, rfl⟩,
    c4_missing_credentials_zero_rows "AI" (fun _ => none) (fun _ => none) 0
      (fun _ => none) (fun _ => none) 2025 2025 365 rfl rfl rfl⟩

/-! ## C5: the search-trend adapter's retry loop (src/sources/trends.py) -/

inductive TrendsOutcome where
  | ok (empty : Bool)
  | tooManyRequests
  | responseErr
  | otherErr
deriving DecidableEq, Repr

inductive TrendsErr where
  | tooManyRequests
  | responseErr
  | otherErr
  | runtimeNoAttempt
deriving DecidableEq, Repr

inductive FetchResult where
  | ok (empty : Bool)
  | err (e : TrendsErr)
deriving DecidableEq, Repr

/-- Trace of one `_fetch_with_retries` run: number of network calls made,
the waits slept (in whole seconds, in order), and the outcome. -/
structure FetchTrace where
  calls : Nat
  waits : List Nat
  result : FetchResult
deriving DecidableEq, Repr

/-- The `for attempt in range(retries + 1)` loop of `_fetch_with_retries`
(trends.py lines 94-113). `outcome a` is the result of the network call at
attempt `a`; `jitter a` is the `random.uniform(0.8, 1.4)` draw at attempt
`a`, in thousandths (so the slept time `int(4 * (attempt+1) * jitter)` is
`4 * (attempt+1) * jitter a / 1000`). On `TooManyRequestsError` the loop
sleeps and continues; on `ResponseError` or any other exception it breaks;
after the loop the last error is raised. -/
def fwrGo (outcome : Nat → TrendsOutcome) (jitter : Nat → Nat) :
    Nat → Nat → Option TrendsErr → List Nat → Nat → FetchTrace
  | _, 0, lastErr, waits, calls =>
    ⟨calls, waits, .err (lastErr.getD .runtimeNoAttempt)⟩
  | attempt, remaining + 1, _, waits, calls =>
    match outcome attempt with
    | .ok e => ⟨calls + 1, waits, .ok e⟩
    | .tooManyRequests =>
        fwrGo outcome jitter (attempt + 1) remaining (some .tooManyRequests)
          (waits ++ [4 * (attempt + 1) * jitter attempt / 1000]) (calls + 1)
    | .responseErr => ⟨calls + 1, waits, .err .responseErr⟩
    | .otherErr => ⟨calls + 1, waits, .err .otherErr⟩

/-- `_fetch_with_retries(pytrends, kw, timeframe, geo, retries=3)`. -/
def fetch_with_retries (outcome : Nat → TrendsOutcome) (jitter : Nat → Nat)
    (retries : Nat) : FetchTrace :=
  fwrGo outcome jitter 0 (retries + 1) none [] 0

inductive TrendsFinal where
  | data
  | emptyErr
  | raised (e : TrendsErr)
deriving DecidableEq, Repr

/-- `fetch_trends` (trends.py lines 116-150) reduced to its fetch control
flow: on a cache hit it returns the cached frame without fetching; otherwise
it tries `_fetch_with_retries` on the requested timeframe and, if that
raises, retries once with the fallback timeframe `"today 5-y"`; an error of
the fallback call propagates; an empty frame raises `RuntimeError`. First
component: the timeframes fetched over the network, in order. -/
def fetch_trends (outcome : String → Nat → TrendsOutcome) (jitter : Nat → Nat)
    (cached : Bool) (timeframe : String) : List String × TrendsFinal :=
  if cached then ([], .data)
  else
    match (fetch_with_retries (outcome timeframe) jitter 3).result with
    | .ok e => ([timeframe], if e then .emptyErr else .data)
    | .err _ =>
      match (fetch_with_retries (outcome "today 5-y") jitter 3).result with
      | .ok e => ([timeframe, "today 5-y"], if e then .emptyErr else .data)
      | .err e2 => ([timeframe, "today 5-y"], .raised e2)


theorem fwrGo_zero (outcome : Nat → TrendsOutcome) (jitter : Nat → Nat)
    (attempt : Nat) (lastErr : Option TrendsErr) (waits : List Nat) (calls : Nat) :
    fwrGo outcome jitter attempt 0 lastErr waits calls
      = ⟨calls, waits, .err (lastErr.getD .runtimeNoAttempt)⟩ := rfl

theorem fwrGo_succ (outcome : Nat → TrendsOutcome) (jitter : Nat → Nat)
    (attempt r : Nat) (lastErr : Option TrendsErr) (waits : List Nat) (calls : Nat) :
    fwrGo outcome jitter attempt (r + 1) lastErr waits calls
      = match outcome attempt with
        | .ok e => ⟨calls + 1, waits, .ok e⟩
        | .tooManyRequests =>
            fwrGo outcome jitter (attempt + 1) r (some .tooManyRequests)
              (waits ++ [4 * (attempt + 1) * jitter attempt / 1000]) (calls + 1)
        | .responseErr => ⟨calls + 1, waits, .err .responseErr⟩
        | .otherErr => ⟨calls + 1, waits, .err .otherErr⟩ := rfl

theorem fetch_with_retries_def (outcome : Nat → TrendsOutcome) (jitter : Nat → Nat)
    (retries : Nat) :
    fetch_with_retries outcome jitter retries = fwrGo outcome jitter 0 (retries + 1) none [] 0 :=
  rfl

theorem fwrGo_calls_le (outcome : Nat → TrendsOutcome) (jitter : Nat → Nat) :
    ∀ remaining attempt lastErr waits calls,
      (fwrGo outcome jitter attempt remaining lastErr waits calls).calls
        ≤ calls + remaining := by
  intro remaining
  induction remaining with
  | zero =>
    intro attempt lastErr waits calls
    rw [fwrGo_zero]
    simp
  | succ r ih =>
    intro attempt lastErr waits calls
    rw [fwrGo_succ]
    cases h : outcome attempt with
    | ok e => simp
    | tooManyRequests =>
      simp only
      have := ih (attempt + 1) (some .tooManyRequests)
        (waits ++ [4 * (attempt + 1) * jitter attempt / 1000]) (calls + 1)
      omega
    | responseErr => simp
    | otherErr => simp

theorem fwrGo_waits_spec (outcome : Nat → TrendsOutcome) (jitter : Nat → Nat) :
    ∀ remaining attempt lastErr waits calls,
      waits.length = attempt →
      (∀ j : Nat, waits[j]? = none ∨ waits[j]? = some (4 * (j + 1) * jitter j / 1000)) →
      ∀ j : Nat,
        (fwrGo outcome jitter attempt remaining lastErr waits calls).waits[j]? = none ∨
        (fwrGo outcome jitter attempt remaining lastErr waits calls).waits[j]?
          = some (4 * (j + 1) * jitter j / 1000) := by
  intro remaining
  induction remaining with
  | zero =>
    intro attempt lastErr waits calls hlen hw j
    rw [fwrGo_zero]
    exact hw j
  | succ r ih =>
    intro attempt lastErr waits calls hlen hw j
    rw [fwrGo_succ]
    cases h : outcome attempt with
    | ok e => exact hw j
    | tooManyRequests =>
      simp only
      refine ih (attempt + 1) (some .tooManyRequests) _ (calls + 1) ?_ ?_ j
      · rw [List.length_append, hlen]
        rfl
      · intro j2
        rcases Nat.lt_or_ge j2 waits.length with hlt | hge
        · rw [List.getElem?_append, if_pos hlt]
          exact hw j2
        · rw [List.getElem?_append, if_neg (by omega)]
          rcases Nat.lt_or_ge (j2 - waits.length) 1 with h1 | h1
          · have hz : j2 - waits.length = 0 := by omega
            have hje : j2 = attempt := by omega
            rw [hz, hje]
            right
            rfl
          · left
            rw [List.getElem?_eq_none]
            simpa using h1
    | responseErr => exact hw j
    | otherErr => exact hw j

theorem fwrGo_all_toomany (outcome : Nat → TrendsOutcome) (jitter : Nat → Nat) :
    ∀ remaining attempt lastErr waits calls,
      1 ≤ remaining →
      (∀ a, attempt ≤ a → a < attempt + remaining → outcome a = .tooManyRequests) →
      (fwrGo outcome jitter attempt remaining lastErr waits calls).result
          = .err .tooManyRequests ∧
      (fwrGo outcome jitter attempt remaining lastErr waits calls).calls
          = calls + remaining ∧
      (fwrGo outcome jitter attempt remaining lastErr waits calls).waits.length
          = waits.length + remaining := by
  intro remaining
  induction remaining with
  | zero =>
    intro attempt lastErr waits calls h1
    omega
  | succ r ih =>
    intro attempt lastErr waits calls h1 hall
    have hstep : fwrGo outcome jitter attempt (r + 1) lastErr waits calls
        = fwrGo outcome jitter (attempt + 1) r (some .tooManyRequests)
            (waits ++ [4 * (attempt + 1) * jitter attempt / 1000]) (calls + 1) := by
      rw [fwrGo_succ, hall attempt (le_refl _) (by omega)]
    rw [hstep]
    rcases Nat.eq_zero_or_pos r with hr | hr
    · subst hr
      rw [fwrGo_zero]
      refine ⟨rfl, by simp, ?_⟩
      simp
    · have := ih (attempt + 1) (some .tooManyRequests)
        (waits ++ [4 * (attempt + 1) * jitter attempt / 1000]) (calls + 1) hr
        (fun a ha1 ha2 => hall a (by omega) (by omega))
      have hlen : (waits ++ [4 * (attempt + 1) * jitter attempt / 1000]).length
          = waits.length + 1 := by simp
      rw [hlen] at this
      refine ⟨this.1, by omega, by omega⟩

/-- C5: the search-trend adapter's retry behaviour. With jitter draws in
[0.8, 1.4] (modelled in thousandths; the uniform distribution itself is not
expressible in this embedding, only its range): the retry loop makes at most
4 network calls (3 retries after the first attempt); every recorded wait at
retry index `k` equals `int(4 * (k+1) * jitter_k)`, hence lies between
`int(3.2*(k+1))` and `int(5.6*(k+1))`; if every attempt hits "too many
requests" the error is raised to the caller after exactly 4 calls and 4
sleeps; and the caller `fetch_trends` then retries exactly once with the
fallback timeframe `"today 5-y"`, propagating the fallback's error if that
also fails. -/
theorem c5_trends_retry_policy (outcome : Nat → TrendsOutcome) (jitter : Nat → Nat)
    (oc2 : String → Nat → TrendsOutcome) (tf : String)
    (hj : ∀ a, 800 ≤ jitter a ∧ jitter a ≤ 1400) :
    (fetch_with_retries outcome jitter 3).calls ≤ 4 ∧
    (∀ k w, (fetch_with_retries outcome jitter 3).waits[k]? = some w →
      w = 4 * (k + 1) * jitter k / 1000 ∧
      4 * (k + 1) * 800 / 1000 ≤ w ∧ w ≤ 4 * (k + 1) * 1400 / 1000) ∧
    ((∀ a, a < 4 → outcome a = .tooManyRequests) →
      (fetch_with_retries outcome jitter 3).result = .err .tooManyRequests ∧
      (fetch_with_retries outcome jitter 3).calls = 4 ∧
      (fetch_with_retries outcome jitter 3).waits.length = 4) ∧
    (∀ e, (fetch_with_retries (oc2 tf) jitter 3).result = .err e →
      (fetch_trends oc2 jitter false tf).1 = [tf, "today 5-y"]) ∧
    (∀ e e2, (fetch_with_retries (oc2 tf) jitter 3).result = .err e →
      (fetch_with_retries (oc2 "today 5-y") jitter 3).result = .err e2 →
      fetch_trends oc2 jitter false tf = ([tf, "today 5-y"], .raised e2)) := by
  refine ⟨?_, ?_, ?_, ?_, ?_⟩
  · rw [fetch_with_retries_def]
    exact fwrGo_calls_le outcome jitter 4 0 none [] 0
  · intro k w hw
    rw [fetch_with_retries_def] at hw
    have hspec := fwrGo_waits_spec outcome jitter 4 0 none [] 0 rfl
      (fun j => Or.inl rfl) k
    rcases hspec with hnone | hsome
    · rw [hw] at hnone
      cases hnone
    · rw [hw] at hsome
      have hval : w = 4 * (k + 1) * jitter k / 1000 := by
        injection hsome
      refine ⟨hval, ?_, ?_⟩
      · rw [hval]
        exact Nat.div_le_div_right (Nat.mul_le_mul_left _ (hj k).1)
      · rw [hval]
        exact Nat.div_le_div_right (Nat.mul_le_mul_left _ (hj k).2)
  · intro hall
    rw [fetch_with_retries_def]
    have := fwrGo_all_toomany outcome jitter 4 0 none [] 0 (by omega)
      (fun a h1 h2 => hall a (by omega))
    exact ⟨this.1, this.2.1, this.2.2⟩
  · intro e he
    unfold fetch_trends
    rw [if_neg (by simp)]
    rw [he]
    cases h2 : (fetch_with_retries (oc2 "today 5-y") jitter 3).result <;> simp
  · intro e e2 he he2
    unfold fetch_trends
    rw [if_neg (by simp)]
    rw [he, he2]

/-- Witness for C5: all attempts rate-limited, jitter pinned at 1.0. -/
theorem c5_trends_retry_policy_witness :
    (∀ a : Nat, 800 ≤ (fun _ : Nat => 1000) a ∧ (fun _ : Nat => 1000) a ≤ 1400) ∧
    ((fetch_with_retries (fun _ => .tooManyRequests) (fun _ => 1000) 3).calls ≤ 4 ∧
    (∀ k w, (fetch_with_retries (fun _ => .tooManyRequests)
        (fun _ => 1000) 3).waits[k]? = some w →
      w = 4 * (k + 1) * (fun _ : Nat => 1000) k / 1000 ∧
      4 * (k + 1) * 800 / 1000 ≤ w ∧ w ≤ 4 * (k + 1) * 1400 / 1000) ∧
    ((∀ a, a < 4 → (fun _ : Nat => TrendsOutcome.tooManyRequests) a = .tooManyRequests) →
      (fetch_with_retries (fun _ => .tooManyRequests) (fun _ => 1000) 3).result
          = .err .tooManyRequests ∧
      (fetch_with_retries (fun _ => .tooManyRequests) (fun _ => 1000) 3).calls = 4 ∧
      (fetch_with_retries (fun _ => .tooManyRequests) (fun _ => 1000) 3).waits.length = 4) ∧
    (∀ e, (fetch_with_retries ((fun _ => fun _ => TrendsOutcome.tooManyRequests) "all")
        (fun _ => 1000) 3).result = .err e →
      (fetch_trends (fun _ => fun _ => .tooManyRequests) (fun _ => 1000) false "all").1
        = ["all", "today 5-y"]) ∧
    (∀ e e2, (fetch_with_retries ((fun _ => fun _ => TrendsOutcome.tooManyRequests) "all")
        (fun _ => 1000) 3).result = .err e →
      (fetch_with_retries ((fun _ => fun _ => TrendsOutcome.tooManyRequests) "today 5-y")
        (fun _ => 1000) 3).result = .err e2 →
      fetch_trends (fun _ => fun _ => .tooManyRequests) (fun _ => 1000) false "all"
        = (["all", "today 5-y"], .raised e2))) :=
  ⟨fun _ => ⟨show (800 : Nat) ≤ 1000 by omega, show (1000 : Nat) ≤ 1400 by omega⟩,
    c5_trends_retry_policy (fun _ => .tooManyRequests) (fun _ => 1000)
      (fun _ => fun _ => .tooManyRequests) "all"
      (fun _ => ⟨show (800 : Nat) ≤ 1000 by omega, show (1000 : Nat) ≤ 1400 by omega⟩)⟩

/-! ## C6: CLI validation and exit codes (src/hype.py) -/

/-- `get_available_sources` (hype.py lines 61-77): the sorted module names
under src/sources/ without `__init__`. -/
def get_available_sources : List String :=
  ["arxiv", "github", "grants", "news", "packages", "patents", "reddit",
   "scholar", "trends", "twitter", "youtube"]

/-- A decimal digit ('0'..'9') to its value. -/
def charDigit (c : Char) : Option Nat :=
  if 48 ≤ c.toNat ∧ c.toNat ≤ 57 then some (c.toNat - 48) else none

/-- Digit-string accumulator for integer parsing. -/
def digitsToNatAux : List Char → Nat → Option Nat
  | [], acc => some acc
  | c :: cs, acc =>
    match charDigit c with
    | some d => digitsToNatAux cs (acc * 10 + d)
    | none => none

/-- Python `int(...)` on the split-off bucket suffix, modelled as an
optional sign followed by decimal digits (`ValueError` = `none`). -/
def toIntChars : List Char → Option Int
  | [] => none
  | '-' :: rest =>
    if rest = [] then none
    else (digitsToNatAux rest 0).map fun n => -(n : Int)
  | cs => (digitsToNatAux cs 0).map fun n => (n : Int)

/-- The bucket-specification parse at the top of `run_hypeplot` (hype.py
lines 180-199): `bucket.startswith("days:")` then
`int(bucket.split(":", 1)[1])`, rejected when non-positive or unparsable;
or one of the keywords `yearly` (365), `monthly` (30), `quarterly` (90);
anything else is a configuration error (`none` here, exit code 1 there). -/
def parse_bucket_spec (bucket : String) : Option Nat :=
  if bucket.data.take 5 = "days:".data then
    match toIntChars (bucket.data.drop 5) with
    | some v => if v ≤ 0 then none else some v.toNat
    | none => none
  else if bucket = "yearly" then some 365
  else if bucket = "monthly" then some 30
  else if bucket = "quarterly" then some 90
  else none

/-- `run_hypeplot` (hype.py lines 169-358) reduced to its control flow:
returns the exit code and the ordered list of sources whose adapters are
invoked. An invalid bucket spec returns 1 before any source is processed;
otherwise scholar and trends are handled first (in that order), then the
remaining requested sources in the sorted order of `get_available_sources`,
and the function returns 0. -/
def run_hypeplot (sources : List String) (bucket : String) : Nat × List String :=
  match parse_bucket_spec bucket with
  | none => (1, [])
  | some _ =>
    (0, (if sources.contains "scholar" then ["scholar"] else [])
      ++ (if sources.contains "trends" then ["trends"] else [])
      ++ ((get_available_sources.filter
            fun s => decide (s ≠ "scholar") && decide (s ≠ "trends")).filter
            fun s => sources.contains s))

/-- `main` (hype.py lines 437-486) after argument parsing: validates the
requested sources against `get_available_sources` and the formats against
{csv, html, png}; on any invalid name it returns 1 without calling
`run_hypeplot` (so no adapter runs); otherwise it delegates to
`run_hypeplot`. (The year/date parsing of lines 442-447 is outside this
claim and not modelled.) -/
def hype_main (sources formats : List String) (bucket : String) : Nat × List String :=
  if (sources.filter fun s => ! get_available_sources.contains s) ≠ [] then (1, [])
  else if (formats.filter fun f => ! ["csv", "html", "png"].contains f) ≠ [] then (1, [])
  else run_hypeplot sources bucket

/-- C6: an invalid bucket specification (unknown keyword, malformed
`days:N`, or `N <= 0`), an invalid source name, or an invalid format name
makes the CLI return exit code 1 with no adapter invoked; when bucket,
sources and formats are all valid the run returns exit code 0. -/
theorem c6_cli_validation (sources formats : List String) (bucket : String) :
    (((∃ s ∈ sources, s ∉ get_available_sources) ∨
      (∃ f ∈ formats, f ∉ ["csv", "html", "png"]) ∨
      parse_bucket_spec bucket = none) →
        hype_main sources formats bucket = (1, [])) ∧
    ((∀ s ∈ sources, s ∈ get_available_sources) →
     (∀ f ∈ formats, f ∈ ["csv", "html", "png"]) →
     parse_bucket_spec bucket ≠ none →
        (hype_main sources formats bucket).1 = 0) := by
  constructor
  · intro hbad
    unfold hype_main
    rcases hbad with ⟨s, hs1, hs2⟩ | h | h
    · rw [if_pos (List.ne_nil_of_mem (List.mem_filter.mpr ⟨hs1, by
        simp only [List.contains, List.elem_eq_mem]
        simpa using hs2⟩))]
    · by_cases hs : (sources.filter fun s => ! get_available_sources.contains s) = []
      · rw [if_neg (not_ne_iff.mpr hs)]
        obtain ⟨f, hf1, hf2⟩ := h
        rw [if_pos (List.ne_nil_of_mem (List.mem_filter.mpr ⟨hf1, by
          simp only [List.contains, List.elem_eq_mem]
          simpa using hf2⟩))]
      · rw [if_pos hs]
    · by_cases hs : (sources.filter fun s => ! get_available_sources.contains s) = []
      · rw [if_neg (not_ne_iff.mpr hs)]
        by_cases hf : (formats.filter fun f => ! ["csv", "html", "png"].contains f) = []
        · rw [if_neg (not_ne_iff.mpr hf)]
          unfold run_hypeplot
          rw [h]
        · rw [if_pos hf]
      · rw [if_pos hs]
  · intro hsok hfok hbok
    unfold hype_main
    rw [if_neg (not_ne_iff.mpr (List.filter_eq_nil_iff.mpr fun s hsmem => by
      simp only [List.contains, List.elem_eq_mem]
      simpa using hsok s hsmem))]
    rw [if_neg (not_ne_iff.mpr (List.filter_eq_nil_iff.mpr fun f hfmem => by
      simp only [List.contains, List.elem_eq_mem]
      have hmem := hfok f hfmem
      simp at hmem ⊢
      tauto))]
    unfold run_hypeplot
    cases hb : parse_bucket_spec bucket with
    | none => exact absurd hb hbok
    | some v => rfl

/-- Witness for C6: `days:0` is rejected with exit 1 and no adapter
invoked; a fully valid invocation exits 0. -/
theorem c6_cli_validation_witness :
    (hype_main ["github"] ["csv"] "days:0" = (1, [])) ∧
    ((hype_main ["github"] ["csv"] "days:10").1 = 0) :=
  ⟨(c6_cli_validation ["github"] ["csv"] "days:0").1 (Or.inr (Or.inr (by decide))),
    (c6_cli_validation ["github"] ["csv"] "days:10").2 (by decide) (by decide) (by decide)⟩

/-! ## C9: the tabular sink (src/utils/utils_io.py save_csv) -/

/-- A pandas DataFrame reduced to what `to_csv` consumes: a stable column
list and stringified cell rows. -/
structure DataFrame where
  cols : List String
  rows : List (List String)
deriving DecidableEq, Repr

/-- `df.to_csv(..., index=False)`: header line (columns joined by commas)
followed by one line per row, in order. A pure function of the frame. -/
def df_to_csv (df : DataFrame) : String :=
  String.intercalate "," df.cols ++ "\n"
    ++ String.join (df.rows.map fun r => String.intercalate "," r ++ "\n")

/-- File-system contents, path to file content. -/
def FileSystem : Type := String → Option String

/-- `save_csv` (utils_io.py lines 14-30): ensures the parent directory
exists (no-op in this model) and writes `df.to_csv(output_path,
index=False)` — pandas opens the path in write mode, truncating any
existing file, so the new content replaces whatever was there. -/
def save_csv (fs : FileSystem) (df : DataFrame) (output_file : String) : FileSystem :=
  fun p => if p = output_file then some (df_to_csv df) else fs p

/-- C9: the tabular sink is deterministic and idempotent. Writing the same
frame twice to a path leaves the file system exactly as one write does; the
file content after a write is the byte string `df_to_csv df` (same stable
header and row order every time); and the resulting content is independent
of what was previously at the path — the write overwrites, it never
appends. -/
theorem c9_save_csv_idempotent_overwrite (fs : FileSystem) (df : DataFrame)
    (path : String) :
    save_csv (save_csv fs df path) df path = save_csv fs df path ∧
    save_csv fs df path path = some (df_to_csv df) ∧
    (∀ fs2 : FileSystem, save_csv fs df path path = save_csv fs2 df path path) := by
  refine ⟨funext fun p => ?_, ?_, fun fs2 => ?_⟩
  · unfold save_csv
    by_cases h : p = path <;> simp [h]
  · unfold save_csv
    simp
  · unfold save_csv
    simp

/-- Witness for C3 with an always-failing adapter over 2025-2025 yearly. -/
theorem c3_github_range_rows_witness :
    (github_get_range "AI" (fun _ => none) 2025 2025 365).length
      = (generate_date_buckets 2025 2025 365).length ∧
    (∀ i : Nat,
      (github_get_range "AI" (fun _ => none) 2025 2025 365)[i]?
        = ((generate_date_buckets 2025 2025 365)[i]?).map fun b =>
            { period := b.label
              start_date := strfYMD b.startSec
              end_date := strfYMD b.endSec
              repo_count := (search_repositories ((fun _ => none) i)).total_count
              total_stars := (search_repositories ((fun _ => none) i)).total_stars
              total_forks := (search_repositories ((fun _ => none) i)).total_forks
              total_watchers := (search_repositories ((fun _ => none) i)).total_watchers }) ∧
    (∀ i : Nat, (fun _ => none : Nat → Option GHStats) i = none →
      ((github_get_range "AI" (fun _ => none) 2025 2025 365)[i]?).all
        fun row => row.repo_count == 0 && row.total_stars == 0 &&
          row.total_forks == 0 && row.total_watchers == 0) :=
  c3_github_range_rows "AI" (fun _ => none) 2025 2025 365
